import Mathlib

/-!
Verification development for the customer-churn ETL pipeline and dashboard.

The embedding models:
* `load_into_sql.py` — the transform-and-load script: boolean remap of
  Yes/No columns via a dict `map`, collapse of the "No phone service" /
  "No internet service" sentinels via `replace`, numeric coercion of
  `TotalCharges` via `to_numeric(errors="coerce").fillna(0)`, and the
  split of the normalized frame into four tables.
* `streamlit_app/app.py` — the dashboard: the left-join chain rebuilding
  the joined view, the sidebar filter engine, and the executive-summary
  aggregates.

Cell values in a pandas dataframe are dynamically typed: a column may hold
strings, numbers, or missing values (NaN/None).  `Val` models that domain;
`Val.null` stands for NaN/None/NULL.
-/

namespace Churn

/-- Cell value of a dataframe column: string, rational number, or missing. -/
inductive Val where
  | s (v : String)
  | n (v : ℚ)
  | null
deriving DecidableEq

/-- Numeric digit-list value, e.g. digitsToNat of chars 4, 2 is 42. -/
def digitsToNat (cs : List Char) : Nat :=
  cs.foldl (fun n c => 10 * n + (c.toNat - 48)) 0

/-- Parse an unsigned decimal literal: digits, optionally with a fractional
part after a dot.  At least one digit must be present.  Mirrors the grammar
pd.to_numeric accepts for plain non-negative decimals. -/
def parseUnsigned (cs : List Char) : Option ℚ :=
  let ip := cs.takeWhile (fun c => c.isDigit)
  let rest := cs.dropWhile (fun c => c.isDigit)
  match rest with
  | [] => if ip.isEmpty then none else some ((digitsToNat ip : ℚ))
  | c :: rest2 =>
    if c = '.' then
      let fp := rest2.takeWhile (fun c2 => c2.isDigit)
      let rest3 := rest2.dropWhile (fun c2 => c2.isDigit)
      if rest3.isEmpty && !(ip.isEmpty && fp.isEmpty) then
        some ((digitsToNat ip : ℚ) + (digitsToNat fp : ℚ) / ((10 : ℚ) ^ fp.length))
      else none
    else none

/-- Strip leading and trailing spaces. -/
def trimSpaces (cs : List Char) : List Char :=
  ((cs.dropWhile (fun c => c = ' ')).reverse.dropWhile (fun c => c = ' ')).reverse

/-- Parse a decimal literal with optional sign, as `pd.to_numeric` does for
string cells: surrounding blanks are ignored, and a string that is not a
decimal literal (including the empty/blank string) fails to parse. -/
def parseDecimal (t : String) : Option ℚ :=
  match trimSpaces t.toList with
  | [] => none
  | c :: rest =>
    if c = '-' then (parseUnsigned rest).map (fun q => -q)
    else if c = '+' then parseUnsigned rest
    else parseUnsigned (c :: rest)

/-- Boolean remap, embedding `df[col].map(dict)` with the dict sending the
string Yes to 1 and the string No to 0 (load_into_sql.py lines 13-19).
A pandas dict-`map` sends every value that is not a key of the dict —
including numbers and NaN — to NaN, silently. -/
def mapYesNo (v : Val) : Val :=
  match v with
  | .s t => if t = "Yes" then .n 1 else if t = "No" then .n 0 else .null
  | _ => .null

/-- Category collapse, embedding `df[col].replace(dict)` with the dict
sending the two sentinels "No phone service" and "No internet service" to
"No" (load_into_sql.py lines 24-28).  `replace` leaves every non-matching
value unchanged. -/
def collapseService (v : Val) : Val :=
  match v with
  | .s t =>
    if t = "No phone service" then .s ("No")
    else if t = "No internet service" then .s ("No")
    else .s t
  | x => x

/-- Numeric coercion of TotalCharges, embedding
`pd.to_numeric(df[c], errors="coerce").fillna(0)` (load_into_sql.py
line 33): numbers pass through, strings are parsed as decimals with parse
failure giving NaN, and the trailing `fillna(0)` turns every NaN into 0. -/
def coerceTotalCharges (v : Val) : Val :=
  match v with
  | .n q => .n q
  | .s t =>
    match parseDecimal t with
    | some q => .n q
    | none => .n 0
  | .null => .n 0

/-- Row of the raw input dataframe, with the CSV column names of
load_into_sql.py.  Every cell is a dynamically typed `Val`. -/
structure RawRow where
  customerID : Val
  gender : Val
  SeniorCitizen : Val
  Partner : Val
  Dependents : Val
  tenure : Val
  PhoneService : Val
  MultipleLines : Val
  InternetService : Val
  OnlineSecurity : Val
  OnlineBackup : Val
  DeviceProtection : Val
  TechSupport : Val
  StreamingTV : Val
  StreamingMovies : Val
  Contract : Val
  PaperlessBilling : Val
  PaymentMethod : Val
  MonthlyCharges : Val
  TotalCharges : Val
  Churn : Val
deriving DecidableEq

/-- Normalization steps 2-4 of load_into_sql.py applied to one row:
boolean remap on the bool_cols list plus SeniorCitizen, category collapse
on the replace_cols list, numeric coercion on TotalCharges.  All other
columns are untouched. -/
def normalizeRow (r : RawRow) : RawRow :=
  { r with
    Partner := mapYesNo r.Partner,
    Dependents := mapYesNo r.Dependents,
    PhoneService := mapYesNo r.PhoneService,
    PaperlessBilling := mapYesNo r.PaperlessBilling,
    SeniorCitizen := mapYesNo r.SeniorCitizen,
    MultipleLines := collapseService r.MultipleLines,
    OnlineSecurity := collapseService r.OnlineSecurity,
    OnlineBackup := collapseService r.OnlineBackup,
    DeviceProtection := collapseService r.DeviceProtection,
    TechSupport := collapseService r.TechSupport,
    StreamingTV := collapseService r.StreamingTV,
    StreamingMovies := collapseService r.StreamingMovies,
    TotalCharges := coerceTotalCharges r.TotalCharges }

example : parseDecimal ("") = none := by decide
example : parseDecimal (" ") = none := by decide
example : parseDecimal ("-5") = some (-5) := by decide
example : mapYesNo (.s ("Maybe")) = .null := by decide
example : mapYesNo (.n 1) = .null := by decide

/-- Row of the `customers` table produced by the split (load_into_sql.py
lines 38-46), with the renamed snake-case column names. -/
structure CustomerRow where
  customer_id : Val
  gender : Val
  senior_citizen : Val
  partner : Val
  dependents : Val
  tenure : Val
deriving DecidableEq

/-- Row of the `services` table produced by the split (lines 48-64). -/
structure ServiceRow where
  customer_id : Val
  phone_service : Val
  multiple_lines : Val
  internet_service : Val
  online_security : Val
  online_backup : Val
  device_protection : Val
  tech_support : Val
  streaming_tv : Val
  streaming_movies : Val
deriving DecidableEq

/-- Row of the `billing` table produced by the split (lines 66-77). -/
structure BillingRow where
  customer_id : Val
  contract : Val
  paperless_billing : Val
  payment_method : Val
  monthly_charges : Val
  total_charges : Val
deriving DecidableEq

/-- Row of the `churn_outcomes` table produced by the split (lines 79-86);
churn_date is always set to an explicit null. -/
structure ChurnRow where
  customer_id : Val
  churn_status : Val
  churn_date : Val
deriving DecidableEq

/-- Normalization steps 2-4 applied to the whole dataframe. -/
def normalizeDf (df : List RawRow) : List RawRow := df.map normalizeRow

/-- The customers_df projection of the normalized frame. -/
def customers_df (df : List RawRow) : List CustomerRow :=
  (normalizeDf df).map (fun r =>
    ⟨r.customerID, r.gender, r.SeniorCitizen, r.Partner, r.Dependents, r.tenure⟩)

/-- The services_df projection of the normalized frame. -/
def services_df (df : List RawRow) : List ServiceRow :=
  (normalizeDf df).map (fun r =>
    ⟨r.customerID, r.PhoneService, r.MultipleLines, r.InternetService,
     r.OnlineSecurity, r.OnlineBackup, r.DeviceProtection, r.TechSupport,
     r.StreamingTV, r.StreamingMovies⟩)

/-- The billing_df projection of the normalized frame. -/
def billing_df (df : List RawRow) : List BillingRow :=
  (normalizeDf df).map (fun r =>
    ⟨r.customerID, r.Contract, r.PaperlessBilling, r.PaymentMethod,
     r.MonthlyCharges, r.TotalCharges⟩)

/-- The churn_df projection of the normalized frame, with churn_date null. -/
def churn_df (df : List RawRow) : List ChurnRow :=
  (normalizeDf df).map (fun r => ⟨r.customerID, r.Churn, Val.null⟩)

/-- Left outer join of two tables on `Val`-typed keys, embedding
`left.merge(right, on=key, how="left")`: each left row is paired with every
matching right row, and with `none` when no right row matches, preserving
left order.  This is the merge used in app.py lines 25-30. -/
def leftJoin (kl : α → Val) (kr : β → Val) (L : List α) (R : List β) :
    List (α × Option β) :=
  L.flatMap (fun a =>
    let ms := R.filter (fun b => kr b == kl a)
    if ms.isEmpty then [(a, none)] else ms.map (fun b => (a, some b)))

/-- First merge of `load_data` (app.py line 27): customers left-joined
with services on customer_id. -/
def joinCS (df : List RawRow) : List (CustomerRow × Option ServiceRow) :=
  leftJoin (fun c => c.customer_id) (fun v => v.customer_id)
    (customers_df df) (services_df df)

/-- Second merge of `load_data` (app.py line 28): the previous result
left-joined with billing on customer_id. -/
def joinCSB (df : List RawRow) :
    List ((CustomerRow × Option ServiceRow) × Option BillingRow) :=
  leftJoin (fun p => p.1.customer_id) (fun b => b.customer_id)
    (joinCS df) (billing_df df)

/-- The joined view rebuilt by `load_data` (app.py lines 25-30): the
left-join chain anchored at customers, through services, billing and
churn_outcomes, all keyed on customer_id. -/
def joinedView (df : List RawRow) :
    List (((CustomerRow × Option ServiceRow) × Option BillingRow) × Option ChurnRow) :=
  leftJoin (fun p => p.1.1.customer_id) (fun c => c.customer_id)
    (joinCSB df) (churn_df df)

/-!
Dashboard model.  app.py reads the four tables back from SQL and merges
them into one dataframe `df`.  The columns the filter engine and the
executive summary touch are modelled in `DRow`.  Columns contributed by
the left side of the join chain (customer_id, tenure, senior_citizen,
gender) are always present; columns contributed by a right side
(contract, monthly_charges, churn_status, ...) are `Option`-typed, `none`
standing for the NULL/NaN a left join fills in when the matching row is
missing.
-/

/-- Row of the joined dashboard view, restricted to the columns used by
the sidebar filters and the executive summary. -/
structure DRow where
  customer_id : String
  gender : Option String
  senior_citizen : Option ℚ
  tenure : ℚ
  contract : Option String
  payment_method : Option String
  monthly_charges : Option ℚ
  total_charges : Option ℚ
  churn_status : Option String
deriving DecidableEq

/-- Filter specification collected by the sidebar form (app.py lines
43-80): the three multiselect value lists, the two inclusive slider
ranges, and the high-risk toggle. -/
structure FilterSpec where
  gender_sel : List String
  contract_sel : List String
  churn_sel : List String
  tenure_lo : ℚ
  tenure_hi : ℚ
  charges_lo : ℚ
  charges_hi : ℚ
  high_risk : Bool

/-- Membership test of a possibly-null cell in a selection list, embedding
`series.isin(selection)`: a NULL cell is never a member (pandas `isin` is
false on NaN for a list of strings). -/
def optMemS (v : Option String) (sel : List String) : Bool :=
  match v with
  | some x => sel.contains x
  | none => false

/-- Inclusive range test, embedding `series.between(lo, hi)` on a
non-null numeric cell. -/
def betweenQ (x lo hi : ℚ) : Bool :=
  decide (lo ≤ x) && decide (x ≤ hi)

/-- Inclusive range test on a possibly-null numeric cell: `between` is
false on NaN. -/
def optBetween (v : Option ℚ) (lo hi : ℚ) : Bool :=
  match v with
  | some x => betweenQ x lo hi
  | none => false

/-- The conjunction of the five sidebar predicates on one row, exactly as
combined with `&` in app.py lines 94-100. -/
def basePred (s : FilterSpec) (r : DRow) : Bool :=
  optMemS r.gender s.gender_sel &&
  optMemS r.contract s.contract_sel &&
  optMemS r.churn_status s.churn_sel &&
  betweenQ r.tenure s.tenure_lo s.tenure_hi &&
  optBetween r.monthly_charges s.charges_lo s.charges_hi

/-- The extra high-risk predicate applied when the toggle is on (app.py
lines 102-105): tenure < 6 and churn_status equal to the string Yes. -/
def highRiskPred (r : DRow) : Bool :=
  decide (r.tenure < 6) && r.churn_status == some ("Yes")

/-- The filter engine, embedding app.py lines 94-105: first the conjunction
of the five sidebar predicates, then — only when the toggle is set — a
second filtering by the high-risk predicate. -/
def dfFiltered (df : List DRow) (s : FilterSpec) : List DRow :=
  if s.high_risk then (df.filter (basePred s)).filter highRiskPred
  else df.filter (basePred s)

/-- Insert into a sorted list of rationals. -/
def insertSorted (x : ℚ) : List ℚ → List ℚ
  | [] => [x]
  | y :: ys => if x ≤ y then x :: y :: ys else y :: insertSorted x ys

/-- Insertion sort of a list of rationals. -/
def sortQ : List ℚ → List ℚ
  | [] => []
  | x :: xs => insertSorted x (sortQ xs)

/-- Median of a list of rationals as `Series.median()` computes it over
the non-null values: none on the empty list, the middle element of the
sorted list for odd length, the mean of the two middle elements for even
length. -/
def medianQ (l : List ℚ) : Option ℚ :=
  let srt := sortQ l
  let n := srt.length
  if n = 0 then none
  else if n % 2 = 1 then srt.get? (n / 2)
  else
    match srt.get? (n / 2 - 1), srt.get? (n / 2) with
    | some a, some b => some ((a + b) / 2)
    | _, _ => none

/-- Non-null monthly_charges values of a view, as pandas' skip-NaN
semantics sees the column. -/
def chargesOf (df : List DRow) : List ℚ :=
  df.filterMap (fun r => r.monthly_charges)

/-- Comparison of a possibly-null cell with a possibly-undefined
threshold: `series > t` is false on NaN cells, and every comparison with
a NaN threshold (median of an empty column) is false. -/
def optGT (v : Option ℚ) (t : Option ℚ) : Bool :=
  match v, t with
  | some x, some y => decide (y < x)
  | _, _ => false

/-- The total_customers metric (app.py line 110): number of distinct
customer_id values in the filtered view. -/
def total_customers (df : List DRow) (s : FilterSpec) : Nat :=
  ((dfFiltered df s).map (fun r => r.customer_id)).dedup.length

/-- The churned_customers count (app.py line 111): rows of the filtered
view whose churn_status is the string Yes. -/
def churned_customers (df : List DRow) (s : FilterSpec) : Nat :=
  (dfFiltered df s).countP (fun r => r.churn_status == some ("Yes"))

/-- The churn_rate metric (app.py line 112): percentage of churned
customers over total customers, 0 when the filtered view has no
customers. -/
def churn_rate (df : List DRow) (s : FilterSpec) : ℚ :=
  if 0 < total_customers df s then
    (churned_customers df s : ℚ) / (total_customers df s : ℚ) * 100
  else 0

/-- The revenue_at_risk metric (app.py line 113): sum of non-null
monthly_charges over churned rows of the filtered view, times 12. -/
def revenue_at_risk (df : List DRow) (s : FilterSpec) : ℚ :=
  (chargesOf ((dfFiltered df s).filter (fun r => r.churn_status == some ("Yes")))).sum * 12

/-- The high_risk_count metric (app.py line 114): rows with tenure < 3
and churn_status Yes. -/
def high_risk_count (df : List DRow) (s : FilterSpec) : Nat :=
  ((dfFiltered df s).filter
    (fun r => decide (r.tenure < 3) && r.churn_status == some ("Yes"))).length

/-- The avg_tenure metric (app.py line 115): arithmetic mean of tenure
over the filtered view, NaN (here `none`) when the view is empty. -/
def avg_tenure (df : List DRow) (s : FilterSpec) : Option ℚ :=
  let l := dfFiltered df s
  if l.length = 0 then none
  else some (((l.map (fun r => r.tenure)).sum) / (l.length : ℚ))

/-- The rendering of the avg_tenure tile (app.py line 121): the formatted
mean when it is not NaN, the string N/A otherwise. -/
def avgTenureDisplay (df : List DRow) (s : FilterSpec) : String :=
  match avg_tenure df s with
  | some q => toString q ++ " months"
  | none => "N/A"

/-- The premium_count metric (app.py line 116): rows of the filtered view
whose monthly_charges strictly exceeds the median of monthly_charges of
the UNFILTERED dataframe `df`. -/
def premium_count (df : List DRow) (s : FilterSpec) : Nat :=
  ((dfFiltered df s).filter (fun r => optGT r.monthly_charges (medianQ (chargesOf df)))).length

/-- The loyal_count metric (app.py line 117): rows with tenure > 24. -/
def loyal_count (df : List DRow) (s : FilterSpec) : Nat :=
  ((dfFiltered df s).filter (fun r => decide (24 < r.tenure))).length

/-- The sidebar default for the gender multiselect (app.py lines 46-47):
the distinct non-null observed values, embedding
`df["gender"].dropna().unique()` (only membership and cardinality of this
list matter below, not its order). -/
def observedGenders (df : List DRow) : List String :=
  (df.filterMap (fun r => r.gender)).dedup

/-!
Spec-side comparator definitions.  These follow the wording of the spec,
not the code, and are compared with the code-derived definitions above in
the theorems below.
-/

/-- Spec-side single predicate: the conjunction of set-membership on the
three categorical filters, inclusive range-membership on the two numeric
filters, and — when the toggle is set — the high-risk predicate. -/
def rowPasses (s : FilterSpec) (r : DRow) : Bool :=
  optMemS r.gender s.gender_sel &&
  optMemS r.contract s.contract_sel &&
  optMemS r.churn_status s.churn_sel &&
  betweenQ r.tenure s.tenure_lo s.tenure_hi &&
  optBetween r.monthly_charges s.charges_lo s.charges_hi &&
  (!s.high_risk || (decide (r.tenure < 6) && r.churn_status == some ("Yes")))

/-- Spec-side filter with the gender conjunct removed: what "output
unconstrained by the gender filter" means. -/
def basePredNoGender (s : FilterSpec) (r : DRow) : Bool :=
  optMemS r.contract s.contract_sel &&
  optMemS r.churn_status s.churn_sel &&
  betweenQ r.tenure s.tenure_lo s.tenure_hi &&
  optBetween r.monthly_charges s.charges_lo s.charges_hi

/-- The filter engine with the gender test dropped. -/
def dfFilteredNoGender (df : List DRow) (s : FilterSpec) : List DRow :=
  if s.high_risk then (df.filter (basePredNoGender s)).filter highRiskPred
  else df.filter (basePredNoGender s)

/-- Spec-side count of rows above a threshold: rows of a view whose
monthly_charges strictly exceeds a given (possibly undefined)
threshold. -/
def countAboveThreshold (rows : List DRow) (t : Option ℚ) : Nat :=
  (rows.filter (fun r => optGT r.monthly_charges t)).length

/-- Spec-side description of a second normalization pass: the row with
its five boolean-remapped columns overwritten by null. -/
def reBooleansNulled (r : RawRow) : RawRow :=
  { r with
    Partner := Val.null,
    Dependents := Val.null,
    PhoneService := Val.null,
    PaperlessBilling := Val.null,
    SeniorCitizen := Val.null }

/-!
Concrete sample data used by counterexamples and witnesses.
-/

/-- A well-formed raw input row (the shape of a cleaned Telco CSV row). -/
def rawRowA : RawRow :=
  { customerID := .s ("C1"), gender := .s ("Female"), SeniorCitizen := .s ("No"),
    Partner := .s ("Yes"), Dependents := .s ("No"), tenure := .n 5,
    PhoneService := .s ("Yes"), MultipleLines := .s ("No phone service"),
    InternetService := .s ("DSL"), OnlineSecurity := .s ("No"),
    OnlineBackup := .s ("Yes"), DeviceProtection := .s ("No internet service"),
    TechSupport := .s ("No"), StreamingTV := .s ("Yes"),
    StreamingMovies := .s ("No"), Contract := .s ("Month-to-month"),
    PaperlessBilling := .s ("Yes"), PaymentMethod := .s ("Electronic check"),
    MonthlyCharges := .n 20, TotalCharges := .s (""), Churn := .s ("No") }

/-- Same customer data under a second distinct customer_id. -/
def rawRowB : RawRow := { rawRowA with customerID := Val.s ("C2") }

/-- A raw row whose Partner column holds a value outside the Yes/No
domain. -/
def rawRowBad : RawRow := { rawRowA with Partner := Val.s ("Maybe") }

/-- A raw row whose TotalCharges column holds a parseable negative
number. -/
def rawRowNeg : RawRow := { rawRowA with TotalCharges := Val.s ("-5") }

/-- An input frame with a duplicated customer_id. -/
def dfDup : List RawRow := [rawRowA, rawRowA]

/-- An input frame with two distinct customer_ids. -/
def dfPair : List RawRow := [rawRowA, rawRowB]

/-- Builder for dashboard rows; the columns not under test are fixed. -/
def mkDRow (cid : String) (g : Option String) (t : ℚ) (mc : Option ℚ)
    (ch : Option String) : DRow :=
  { customer_id := cid, gender := g, senior_citizen := some 0, tenure := t,
    contract := some ("Month-to-month"),
    payment_method := some ("Electronic check"), monthly_charges := mc,
    total_charges := some 0, churn_status := ch }

/-- The ten-customer view of the KPI scenario: three churned customers
with monthly charges 50, 60 and 70, seven retained ones. -/
def dfTen : List DRow :=
  [ mkDRow ("D1") (some ("Female")) 10 (some 50) (some ("Yes")),
    mkDRow ("D2") (some ("Female")) 10 (some 60) (some ("Yes")),
    mkDRow ("D3") (some ("Female")) 10 (some 70) (some ("Yes")),
    mkDRow ("D4") (some ("Female")) 10 (some 20) (some ("No")),
    mkDRow ("D5") (some ("Female")) 10 (some 20) (some ("No")),
    mkDRow ("D6") (some ("Female")) 10 (some 20) (some ("No")),
    mkDRow ("D7") (some ("Female")) 10 (some 20) (some ("No")),
    mkDRow ("D8") (some ("Female")) 10 (some 20) (some ("No")),
    mkDRow ("D9") (some ("Female")) 10 (some 20) (some ("No")),
    mkDRow ("D10") (some ("Female")) 10 (some 20) (some ("No")) ]

/-- A pass-everything filter specification for the sample views. -/
def specAll : FilterSpec :=
  { gender_sel := [("Female")], contract_sel := [("Month-to-month")],
    churn_sel := [("Yes"), ("No")], tenure_lo := 0, tenure_hi := 100,
    charges_lo := 0, charges_hi := 1000, high_risk := false }

/-- A five-customer view with monthly charges 10 to 50. -/
def dfFive : List DRow :=
  [ mkDRow ("E1") (some ("Female")) 10 (some 10) (some ("No")),
    mkDRow ("E2") (some ("Female")) 10 (some 20) (some ("No")),
    mkDRow ("E3") (some ("Female")) 10 (some 30) (some ("No")),
    mkDRow ("E4") (some ("Female")) 10 (some 40) (some ("No")),
    mkDRow ("E5") (some ("Female")) 10 (some 50) (some ("No")) ]

/-- A filter keeping only the rows of `dfFive` with charges at least
25. -/
def specHigh : FilterSpec :=
  { gender_sel := [("Female")], contract_sel := [("Month-to-month")],
    churn_sel := [("Yes"), ("No")], tenure_lo := 0, tenure_hi := 100,
    charges_lo := 25, charges_hi := 1000, high_risk := false }

/-- A dashboard row with non-null gender. -/
def rowM : DRow := mkDRow ("M1") (some ("Male")) 10 (some 40) (some ("No"))

/-- A dashboard row with null gender, as the left join produces for a
customer whose service row is missing. -/
def rowNull : DRow := mkDRow ("N1") none 10 (some 40) (some ("No"))

/-- A two-row view containing a null-gender row. -/
def dfNull : List DRow := [rowM, rowNull]

/-- The filter specification whose gender selection is the full observed
set of `dfNull` and whose other filters pass everything. -/
def specFull : FilterSpec :=
  { gender_sel := [("Male")], contract_sel := [("Month-to-month")],
    churn_sel := [("No")], tenure_lo := 0, tenure_hi := 100,
    charges_lo := 0, charges_hi := 100, high_risk := false }

/-- The same specification with an emptied gender selection. -/
def specNoGenderSel : FilterSpec := { specFull with gender_sel := [] }

/-!
Helper lemmas about the normalization primitives.
-/

/-- Full characterization of the boolean remap on one cell: 1 exactly on
the string Yes, 0 exactly on the string No, null exactly otherwise. -/
theorem mapYesNo_spec (v : Val) :
    (mapYesNo v = Val.n 1 ↔ v = Val.s ("Yes")) ∧
    (mapYesNo v = Val.n 0 ↔ v = Val.s ("No")) ∧
    (mapYesNo v = Val.null ↔ (v ≠ Val.s ("Yes") ∧ v ≠ Val.s ("No"))) := by
  rcases v with t | q | _
  · by_cases h1 : t = "Yes"
    · subst h1; simp [mapYesNo]
    · by_cases h2 : t = "No"
      · subst h2; simp [mapYesNo]
      · simp [mapYesNo, h1, h2]
  · simp [mapYesNo]
  · simp [mapYesNo]

/-- A second application of the boolean remap nulls every cell: the first
application only produces the number 1, the number 0 or null, and none of
those is a key of the Yes/No dict. -/
theorem mapYesNo_mapYesNo (v : Val) : mapYesNo (mapYesNo v) = Val.null := by
  rcases v with t | q | _
  · by_cases h1 : t = "Yes"
    · subst h1; rfl
    · by_cases h2 : t = "No"
      · subst h2; rfl
      · simp [mapYesNo, h1, h2]
  · rfl
  · rfl

/-- Category collapse passes every non-sentinel value through
unchanged. -/
theorem collapseService_other (v : Val) (h1 : v ≠ Val.s ("No phone service"))
    (h2 : v ≠ Val.s ("No internet service")) : collapseService v = v := by
  rcases v with t | q | _
  · have ht1 : t ≠ "No phone service" := fun h => h1 (by rw [h])
    have ht2 : t ≠ "No internet service" := fun h => h2 (by rw [h])
    simp [collapseService, ht1, ht2]
  · rfl
  · rfl

/-- The output of the category collapse is never one of the two
sentinels. -/
theorem collapseService_ne_sentinel (v : Val) :
    collapseService v ≠ Val.s ("No phone service") ∧
    collapseService v ≠ Val.s ("No internet service") := by
  rcases v with t | q | _
  · by_cases h1 : t = "No phone service"
    · subst h1; decide
    · by_cases h2 : t = "No internet service"
      · subst h2; decide
      · simp [collapseService, h1, h2]
  · simp [collapseService]
  · simp [collapseService]

/-- Category collapse is idempotent. -/
theorem collapseService_idem (v : Val) :
    collapseService (collapseService v) = collapseService v :=
  collapseService_other _ (collapseService_ne_sentinel v).1
    (collapseService_ne_sentinel v).2

/-- Numeric coercion always yields a number. -/
theorem coerceTotalCharges_isNumeric (v : Val) :
    ∃ q : ℚ, coerceTotalCharges v = Val.n q := by
  rcases v with t | q | _
  · cases h : parseDecimal t with
    | none => exact ⟨0, by simp [coerceTotalCharges, h]⟩
    | some q => exact ⟨q, by simp [coerceTotalCharges, h]⟩
  · exact ⟨q, rfl⟩
  · exact ⟨0, rfl⟩

/-- Numeric coercion is idempotent. -/
theorem coerceTotalCharges_idem (v : Val) :
    coerceTotalCharges (coerceTotalCharges v) = coerceTotalCharges v := by
  rcases v with t | q | _
  · cases h : parseDecimal t <;> simp [coerceTotalCharges, h]
  · rfl
  · rfl

/-!
Helper lemmas about the left join.
-/

/-- A left join in which every left row has exactly one right match has
exactly one output row per left row. -/
theorem length_leftJoin {α β : Type} (kl : α → Val) (kr : β → Val)
    (L : List α) (R : List β)
    (h : ∀ a ∈ L, (R.filter (fun b => kr b == kl a)).length = 1) :
    (leftJoin kl kr L R).length = L.length := by
  induction L with
  | nil => rfl
  | cons a L ih =>
    have ha := h a (List.mem_cons_self a L)
    obtain ⟨b, hb⟩ := List.length_eq_one.mp ha
    have hstep : leftJoin kl kr (a :: L) R =
        (if (R.filter (fun b => kr b == kl a)).isEmpty then [(a, (none : Option β))]
         else (R.filter (fun b => kr b == kl a)).map (fun b => (a, some b))) ++
          leftJoin kl kr L R := by
      simp [leftJoin]
    rw [hstep, List.length_append, hb,
      ih (fun x hx => h x (List.mem_cons_of_mem a hx))]
    simp [Nat.add_comm]

/-- The left component of every output row of a left join is a row of the
left table. -/
theorem mem_leftJoin_fst {α β : Type} {kl : α → Val} {kr : β → Val}
    {L : List α} {R : List β} {p : α × Option β}
    (hp : p ∈ leftJoin kl kr L R) : p.1 ∈ L := by
  unfold leftJoin at hp
  rw [List.mem_flatMap] at hp
  obtain ⟨a, ha, hpa⟩ := hp
  by_cases he : (R.filter (fun b => kr b == kl a)).isEmpty
  · rw [if_pos he] at hpa
    rw [List.mem_singleton] at hpa
    rw [hpa]
    exact ha
  · rw [if_neg he] at hpa
    rw [List.mem_map] at hpa
    obtain ⟨b, _, hba⟩ := hpa
    rw [← hba]
    exact ha

/-- Counting matches in a projected table: filtering a mapped table by a
key that the projection carries over from customerID counts exactly the
occurrences of that key among the input customerIDs. -/
theorem length_filter_key {T : Type} [DecidableEq T] (g : RawRow → T)
    (key : T → Val) (hkey : ∀ r, key (g r) = r.customerID)
    (df : List RawRow) (k : Val) :
    ((df.map g).filter (fun b => key b == k)).length =
      (df.map (fun r => r.customerID)).count k := by
  induction df with
  | nil => rfl
  | cons r df ih =>
    simp only [List.map_cons, List.filter_cons, List.count_cons, hkey]
    by_cases hk : r.customerID == k
    · simp [hk, ih]
    · simp [hk, ih]

/-- Filtering the services table by a customer_id counts the occurrences
of that id among the input customerIDs. -/
theorem services_filter_count (df : List RawRow) (k : Val) :
    ((services_df df).filter (fun v => v.customer_id == k)).length =
      (df.map (fun r => r.customerID)).count k := by
  have hdf : services_df df = df.map (fun r =>
      (⟨(normalizeRow r).customerID, (normalizeRow r).PhoneService,
        (normalizeRow r).MultipleLines, (normalizeRow r).InternetService,
        (normalizeRow r).OnlineSecurity, (normalizeRow r).OnlineBackup,
        (normalizeRow r).DeviceProtection, (normalizeRow r).TechSupport,
        (normalizeRow r).StreamingTV, (normalizeRow r).StreamingMovies⟩ :
        ServiceRow)) := by
    simp [services_df, normalizeDf, List.map_map]
  rw [hdf]
  exact length_filter_key _ (fun v : ServiceRow => v.customer_id) (fun r => rfl) df k

/-- Filtering the billing table by a customer_id counts the occurrences
of that id among the input customerIDs. -/
theorem billing_filter_count (df : List RawRow) (k : Val) :
    ((billing_df df).filter (fun b => b.customer_id == k)).length =
      (df.map (fun r => r.customerID)).count k := by
  have hdf : billing_df df = df.map (fun r =>
      (⟨(normalizeRow r).customerID, (normalizeRow r).Contract,
        (normalizeRow r).PaperlessBilling, (normalizeRow r).PaymentMethod,
        (normalizeRow r).MonthlyCharges, (normalizeRow r).TotalCharges⟩ :
        BillingRow)) := by
    simp [billing_df, normalizeDf, List.map_map]
  rw [hdf]
  exact length_filter_key _ (fun b : BillingRow => b.customer_id) (fun r => rfl) df k

/-- Filtering the churn_outcomes table by a customer_id counts the
occurrences of that id among the input customerIDs. -/
theorem churn_filter_count (df : List RawRow) (k : Val) :
    ((churn_df df).filter (fun c => c.customer_id == k)).length =
      (df.map (fun r => r.customerID)).count k := by
  have hdf : churn_df df = df.map (fun r =>
      (⟨(normalizeRow r).customerID, (normalizeRow r).Churn, Val.null⟩ :
        ChurnRow)) := by
    simp [churn_df, normalizeDf, List.map_map]
  rw [hdf]
  exact length_filter_key _ (fun c : ChurnRow => c.customer_id) (fun r => rfl) df k

/-- The customer_id of every row of the customers table occurs among the
input customerIDs. -/
theorem mem_customers_id (df : List RawRow) (a : CustomerRow)
    (ha : a ∈ customers_df df) :
    a.customer_id ∈ df.map (fun r => r.customerID) := by
  simp only [customers_df, normalizeDf, List.map_map, List.mem_map] at ha
  obtain ⟨r, hr, hra⟩ := ha
  rw [← hra]
  exact List.mem_map_of_mem (fun r => r.customerID) hr

/-- C1, counterexample: on a row whose Partner column holds the value
Maybe, the load pass does not fail — normalization is a total function in
the script, a pandas dict-`map` raises nothing — and instead produces the
output value null (NaN), which is neither 0 nor 1.  So the loader emits
values outside the 0/1 domain rather than raising a DataCoercionError. -/
theorem C1_counterexample :
    (normalizeRow rawRowBad).Partner = Val.null ∧
    Val.null ≠ Val.n 0 ∧ Val.null ≠ Val.n 1 := by decide

/-- C1, amended: the boolean remap maps Yes to 1 and No to 0 in each of
the five remapped fields, and any other value — instead of failing the
load pass — silently becomes null, so the output boolean columns range
over 0, 1 and null. -/
theorem C1_boolean_remap_amended : ∀ (r : RawRow),
    (((normalizeRow r).Partner = Val.n 1 ↔ r.Partner = Val.s ("Yes")) ∧
      ((normalizeRow r).Partner = Val.n 0 ↔ r.Partner = Val.s ("No")) ∧
      ((normalizeRow r).Partner = Val.null ↔
        (r.Partner ≠ Val.s ("Yes") ∧ r.Partner ≠ Val.s ("No")))) ∧
    (((normalizeRow r).Dependents = Val.n 1 ↔ r.Dependents = Val.s ("Yes")) ∧
      ((normalizeRow r).Dependents = Val.n 0 ↔ r.Dependents = Val.s ("No")) ∧
      ((normalizeRow r).Dependents = Val.null ↔
        (r.Dependents ≠ Val.s ("Yes") ∧ r.Dependents ≠ Val.s ("No")))) ∧
    (((normalizeRow r).PhoneService = Val.n 1 ↔ r.PhoneService = Val.s ("Yes")) ∧
      ((normalizeRow r).PhoneService = Val.n 0 ↔ r.PhoneService = Val.s ("No")) ∧
      ((normalizeRow r).PhoneService = Val.null ↔
        (r.PhoneService ≠ Val.s ("Yes") ∧ r.PhoneService ≠ Val.s ("No")))) ∧
    (((normalizeRow r).PaperlessBilling = Val.n 1 ↔ r.PaperlessBilling = Val.s ("Yes")) ∧
      ((normalizeRow r).PaperlessBilling = Val.n 0 ↔ r.PaperlessBilling = Val.s ("No")) ∧
      ((normalizeRow r).PaperlessBilling = Val.null ↔
        (r.PaperlessBilling ≠ Val.s ("Yes") ∧ r.PaperlessBilling ≠ Val.s ("No")))) ∧
    (((normalizeRow r).SeniorCitizen = Val.n 1 ↔ r.SeniorCitizen = Val.s ("Yes")) ∧
      ((normalizeRow r).SeniorCitizen = Val.n 0 ↔ r.SeniorCitizen = Val.s ("No")) ∧
      ((normalizeRow r).SeniorCitizen = Val.null ↔
        (r.SeniorCitizen ≠ Val.s ("Yes") ∧ r.SeniorCitizen ≠ Val.s ("No")))) :=
  fun r =>
    ⟨mapYesNo_spec r.Partner, mapYesNo_spec r.Dependents,
     mapYesNo_spec r.PhoneService, mapYesNo_spec r.PaperlessBilling,
     mapYesNo_spec r.SeniorCitizen⟩

/-- C1, witness: the amended theorem applied to a concrete well-formed
row, whose Partner column Yes is mapped to 1. -/
theorem C1_witness : (normalizeRow rawRowA).Partner = Val.n 1 :=
  ((C1_boolean_remap_amended rawRowA).1.1).mpr rfl

/-- C2, counterexample: the Normalizer is not idempotent.  On the
normalization of a well-formed row, a second pass differs from the first:
the Partner column, already coded 1, is remapped to null because the
number 1 is not a key of the Yes/No dict. -/
theorem C2_counterexample :
    normalizeRow (normalizeRow rawRowA) ≠ normalizeRow rawRowA ∧
    (normalizeRow rawRowA).Partner = Val.n 1 ∧
    (normalizeRow (normalizeRow rawRowA)).Partner = Val.null := by decide

/-- C2, amended: the category collapse and the numeric coercion are
idempotent, but the boolean remap is not — a second application nulls
every cell — so a second run of the Normalizer equals the first run with
all five boolean columns overwritten by null (and every other column
unchanged), not a fixed point. -/
theorem C2_idempotence_amended : ∀ (v : Val) (r : RawRow),
    collapseService (collapseService v) = collapseService v ∧
    coerceTotalCharges (coerceTotalCharges v) = coerceTotalCharges v ∧
    mapYesNo (mapYesNo v) = Val.null ∧
    normalizeRow (normalizeRow r) = reBooleansNulled (normalizeRow r) := by
  intro v r
  refine ⟨collapseService_idem v, coerceTotalCharges_idem v,
    mapYesNo_mapYesNo v, ?_⟩
  cases r
  simp [normalizeRow, reBooleansNulled, mapYesNo_mapYesNo,
    collapseService_idem, coerceTotalCharges_idem]

/-- C7, counterexample: a TotalCharges cell holding the parseable text -5
is kept as the negative number -5 by the coercion, so total_charges is
not always non-negative. -/
theorem C7_counterexample :
    (normalizeRow rawRowNeg).TotalCharges = Val.n (-5) ∧
    ¬ ((0 : ℚ) ≤ -5) := by decide

/-- C7, amended: after coercion total_charges is always a number; a value
that parses as a decimal is kept (even when negative), an unparseable
value (including blank text) becomes 0 rather than an error, and the
result is non-negative whenever the parsed value is. -/
theorem C7_total_charges_amended : ∀ (r : RawRow),
    (∃ q : ℚ, (normalizeRow r).TotalCharges = Val.n q) ∧
    (∀ t, r.TotalCharges = Val.s t → parseDecimal t = none →
      (normalizeRow r).TotalCharges = Val.n 0) ∧
    (∀ t q, r.TotalCharges = Val.s t → parseDecimal t = some q →
      (normalizeRow r).TotalCharges = Val.n q) ∧
    (∀ t q, r.TotalCharges = Val.s t → parseDecimal t = some q → 0 ≤ q →
      ∃ q2, (normalizeRow r).TotalCharges = Val.n q2 ∧ 0 ≤ q2) := by
  intro r
  have hnorm : (normalizeRow r).TotalCharges =
      coerceTotalCharges r.TotalCharges := rfl
  refine ⟨?_, ?_, ?_, ?_⟩
  · rw [hnorm]
    exact coerceTotalCharges_isNumeric r.TotalCharges
  · intro t ht hp
    rw [hnorm, ht]
    simp [coerceTotalCharges, hp]
  · intro t q ht hp
    rw [hnorm, ht]
    simp [coerceTotalCharges, hp]
  · intro t q ht hp hq
    refine ⟨q, ?_, hq⟩
    rw [hnorm, ht]
    simp [coerceTotalCharges, hp]

/-- C7, witness: the amended theorem applied to a concrete row with a
blank TotalCharges cell, which the coercion turns into 0. -/
theorem C7_witness : (normalizeRow rawRowA).TotalCharges = Val.n 0 :=
  (C7_total_charges_amended rawRowA).2.1 ("") rfl (by decide)

/-- C8: the category collapse replaces both sentinels by No, passes every
other value through unchanged, and after normalization none of the seven
collapsed columns ever holds a sentinel. -/
theorem C8_collapse : ∀ (r : RawRow) (v : Val),
    collapseService (Val.s ("No phone service")) = Val.s ("No") ∧
    collapseService (Val.s ("No internet service")) = Val.s ("No") ∧
    (v ≠ Val.s ("No phone service") → v ≠ Val.s ("No internet service") →
      collapseService v = v) ∧
    ((normalizeRow r).MultipleLines ≠ Val.s ("No phone service") ∧
      (normalizeRow r).MultipleLines ≠ Val.s ("No internet service")) ∧
    ((normalizeRow r).OnlineSecurity ≠ Val.s ("No phone service") ∧
      (normalizeRow r).OnlineSecurity ≠ Val.s ("No internet service")) ∧
    ((normalizeRow r).OnlineBackup ≠ Val.s ("No phone service") ∧
      (normalizeRow r).OnlineBackup ≠ Val.s ("No internet service")) ∧
    ((normalizeRow r).DeviceProtection ≠ Val.s ("No phone service") ∧
      (normalizeRow r).DeviceProtection ≠ Val.s ("No internet service")) ∧
    ((normalizeRow r).TechSupport ≠ Val.s ("No phone service") ∧
      (normalizeRow r).TechSupport ≠ Val.s ("No internet service")) ∧
    ((normalizeRow r).StreamingTV ≠ Val.s ("No phone service") ∧
      (normalizeRow r).StreamingTV ≠ Val.s ("No internet service")) ∧
    ((normalizeRow r).StreamingMovies ≠ Val.s ("No phone service") ∧
      (normalizeRow r).StreamingMovies ≠ Val.s ("No internet service")) :=
  fun r v =>
    ⟨by decide, by decide, collapseService_other v,
     collapseService_ne_sentinel r.MultipleLines,
     collapseService_ne_sentinel r.OnlineSecurity,
     collapseService_ne_sentinel r.OnlineBackup,
     collapseService_ne_sentinel r.DeviceProtection,
     collapseService_ne_sentinel r.TechSupport,
     collapseService_ne_sentinel r.StreamingTV,
     collapseService_ne_sentinel r.StreamingMovies⟩

/-- C8, witness: the pass-through part of the collapse applied to the
concrete non-sentinel value DSL. -/
theorem C8_witness : collapseService (Val.s ("DSL")) = Val.s ("DSL") :=
  (C8_collapse rawRowA (Val.s ("DSL"))).2.2.1 (by decide) (by decide)

/-- C3, counterexample: the claim quantifies over every input record set,
but on an input in which the same customerID occurs twice, each left join
of the chain multiplies the matches, and the joined view has 16 rows
while the Customer table has 2. -/
theorem C3_counterexample :
    (joinedView dfDup).length = 16 ∧
    (customers_df dfDup).length = 2 ∧
    (joinedView dfDup).length ≠ (customers_df dfDup).length := by decide

/-- C3, amended: on every input record set whose customerID values are
pairwise distinct, the left-join chain over the four split tables yields
exactly one row per Customer row — the joined view's row count equals the
Customer table's row count. -/
theorem C3_roundtrip_amended (df : List RawRow)
    (h : (df.map (fun r => r.customerID)).Nodup) :
    (joinedView df).length = (customers_df df).length := by
  have hone : ∀ k, k ∈ df.map (fun r => r.customerID) →
      (df.map (fun r => r.customerID)).count k = 1 :=
    fun k hk => List.count_eq_one_of_mem h hk
  have h1 : (joinCS df).length = (customers_df df).length :=
    length_leftJoin _ _ _ _ (fun a ha => by
      show ((services_df df).filter
        (fun v => v.customer_id == a.customer_id)).length = 1
      rw [services_filter_count]
      exact hone _ (mem_customers_id df a ha))
  have h2 : (joinCSB df).length = (joinCS df).length :=
    length_leftJoin _ _ _ _ (fun p hp => by
      show ((billing_df df).filter
        (fun b => b.customer_id == p.1.customer_id)).length = 1
      rw [billing_filter_count]
      exact hone _ (mem_customers_id df p.1 (mem_leftJoin_fst hp)))
  have h3 : (joinedView df).length = (joinCSB df).length :=
    length_leftJoin _ _ _ _ (fun p hp => by
      show ((churn_df df).filter
        (fun c => c.customer_id == p.1.1.customer_id)).length = 1
      rw [churn_filter_count]
      exact hone _ (mem_customers_id df p.1.1
        (mem_leftJoin_fst (mem_leftJoin_fst hp))))
  rw [h3, h2, h1]

/-- C3, witness: the amended round-trip theorem applied to a concrete
two-customer input with distinct ids. -/
theorem C3_witness : (joinedView dfPair).length = (customers_df dfPair).length :=
  C3_roundtrip_amended dfPair (by decide)

/-- Two chained filters equal one filter by the conjunction. -/
theorem filter_two_stage (p q : DRow → Bool) (l : List DRow) :
    (l.filter p).filter q = l.filter (fun a => p a && q a) := by
  induction l with
  | nil => rfl
  | cons a l ih =>
    by_cases hp : p a
    · by_cases hq : q a
      · simp [List.filter_cons, hp, hq, ih]
      · simp [List.filter_cons, hp, hq, ih]
    · simp [List.filter_cons, hp, ih]

/-- A possibly-null cell that passes the membership test is non-null. -/
theorem optMemS_isSome {v : Option String} {sel : List String}
    (h : optMemS v sel = true) : v.isSome := by
  cases v
  · simp [optMemS] at h
  · rfl

/-- C4, counterexample: on a view holding a null-gender row (as the left
join produces for a customer without a service row), the full observed
gender selection does not leave the output unconstrained by the gender
filter: the null-gender row passes every other filter yet is excluded. -/
theorem C4_counterexample :
    specFull.gender_sel = observedGenders dfNull ∧
    basePredNoGender specFull rowNull = true ∧
    dfFiltered dfNull specFull = [rowM] ∧
    dfFilteredNoGender dfNull specFull = [rowM, rowNull] ∧
    dfFiltered dfNull specFull ≠ dfFilteredNoGender dfNull specFull := by decide

/-- C4, amended: the filter engine returns exactly the rows satisfying
the conjunction of set-membership on the three categorical columns,
inclusive range-membership on the two numeric columns and, when the
toggle is set, the high-risk predicate; an empty allowed-value set for
any categorical filter yields an empty result; and a full allowed-value
set leaves the output unconstrained by that filter on the rows whose
value in that column is non-null (null-valued rows are always excluded —
see the C10 theorem). -/
theorem C4_filter_engine_amended : ∀ (df : List DRow) (s : FilterSpec),
    dfFiltered df s = df.filter (rowPasses s) ∧
    (s.gender_sel = [] → dfFiltered df s = []) ∧
    (s.contract_sel = [] → dfFiltered df s = []) ∧
    (s.churn_sel = [] → dfFiltered df s = []) ∧
    ((∀ r ∈ df, ∃ g, r.gender = some g ∧ g ∈ s.gender_sel) →
      dfFiltered df s = dfFilteredNoGender df s) := by
  intro df s
  refine ⟨?_, ?_, ?_, ?_, ?_⟩
  · unfold dfFiltered
    by_cases hhr : s.high_risk
    · rw [if_pos hhr, filter_two_stage]
      exact List.filter_congr (fun a _ => by
        simp [basePred, rowPasses, highRiskPred, hhr, Bool.and_assoc])
    · rw [if_neg hhr]
      exact List.filter_congr (fun a _ => by
        simp [basePred, rowPasses, hhr, Bool.and_assoc])
  · intro hg
    have hbase : df.filter (basePred s) = [] := by
      rw [List.filter_eq_nil_iff]
      intro a _
      rcases hga : a.gender with _ | g <;>
        simp [basePred, optMemS, hg, hga]
    unfold dfFiltered
    rw [hbase]
    cases s.high_risk <;> simp
  · intro hc
    have hbase : df.filter (basePred s) = [] := by
      rw [List.filter_eq_nil_iff]
      intro a _
      rcases hca : a.contract with _ | c <;>
        simp [basePred, optMemS, hc, hca]
    unfold dfFiltered
    rw [hbase]
    cases s.high_risk <;> simp
  · intro hch
    have hbase : df.filter (basePred s) = [] := by
      rw [List.filter_eq_nil_iff]
      intro a _
      rcases hcha : a.churn_status with _ | c <;>
        simp [basePred, optMemS, hch, hcha]
    unfold dfFiltered
    rw [hbase]
    cases s.high_risk <;> simp
  · intro hfull
    have hbase : df.filter (basePred s) = df.filter (basePredNoGender s) :=
      List.filter_congr (fun a ha => by
        obtain ⟨g, hga, hgsel⟩ := hfull a ha
        simp [basePred, basePredNoGender, optMemS, hga, hgsel,
          Bool.and_assoc])
    unfold dfFiltered dfFilteredNoGender
    rw [hbase]

/-- C4, witness: the amended theorem applied concretely — emptying the
gender selection empties the output, and on an all-female view whose
gender selection is the full observed set the gender filter does not
constrain the output. -/
theorem C4_witness :
    dfFiltered dfNull specNoGenderSel = [] ∧
    dfFiltered dfTen specAll = dfFilteredNoGender dfTen specAll := by
  constructor
  · exact (C4_filter_engine_amended dfNull specNoGenderSel).2.1 rfl
  · refine (C4_filter_engine_amended dfTen specAll).2.2.2.2 ?_
    intro r hr
    simp only [dfTen, List.mem_cons, List.not_mem_nil, or_false] at hr
    rcases hr with rfl | rfl | rfl | rfl | rfl | rfl | rfl | rfl | rfl | rfl <;>
      exact ⟨("Female"), rfl, by decide⟩

/-- C5: premium_count counts the filtered rows above the median of
monthly_charges of the UNFILTERED base view; the concrete instance shows
the baseline is really the unfiltered one — counting against the
filtered view's own median would give a different number. -/
theorem C5_premium_baseline :
    (∀ (df : List DRow) (s : FilterSpec),
      premium_count df s =
        countAboveThreshold (dfFiltered df s) (medianQ (chargesOf df))) ∧
    premium_count dfFive specHigh = 2 ∧
    countAboveThreshold (dfFiltered dfFive specHigh)
      (medianQ (chargesOf (dfFiltered dfFive specHigh))) = 1 :=
  ⟨fun df s => rfl, by decide, by decide⟩

/-- C6: when the filtered view is empty, the aggregates take their
guarded neutral values — 0 total customers, 0 churn rate, and the
avg-tenure tile renders N/A — and, the embedding being total functions,
no exception is raised. -/
theorem C6_empty_view (df : List DRow) (s : FilterSpec)
    (h : dfFiltered df s = []) :
    total_customers df s = 0 ∧ churn_rate df s = 0 ∧
    avgTenureDisplay df s = "N/A" := by
  refine ⟨?_, ?_, ?_⟩
  · simp [total_customers, h]
  · simp [churn_rate, total_customers, h]
  · simp [avgTenureDisplay, avg_tenure, h]

/-- C6, witness: the theorem applied to a concrete view and filter whose
result is empty. -/
theorem C6_witness :
    total_customers dfNull specNoGenderSel = 0 ∧
    churn_rate dfNull specNoGenderSel = 0 ∧
    avgTenureDisplay dfNull specNoGenderSel = "N/A" :=
  C6_empty_view dfNull specNoGenderSel (by decide)

/-- C9: on the ten-customer view with three churned customers whose
monthly charges are 50, 60 and 70, revenue_at_risk is 2160 and the churn
rate is 30 percent. -/
theorem C9_kpi_scenario :
    revenue_at_risk dfTen specAll = 2160 ∧ churn_rate dfTen specAll = 30 := by
  have hf : dfFiltered dfTen specAll = dfTen := by decide
  constructor
  · unfold revenue_at_risk
    rw [hf]
    have hc : chargesOf
        (dfTen.filter (fun r => r.churn_status == some ("Yes"))) =
        [50, 60, 70] := by decide
    rw [hc]
    norm_num [List.sum_cons, List.sum_nil]
  · have ht : total_customers dfTen specAll = 10 := by decide
    have hch : churned_customers dfTen specAll = 3 := by decide
    unfold churn_rate
    rw [ht, hch]
    norm_num

/-- C10: every row of the filtered view has non-null gender, contract
and churn_status — a row in which the left join left any of these null
fails the corresponding membership test for every possible selection, so
it never reaches the filtered view. -/
theorem C10_null_rows_excluded (df : List DRow) (s : FilterSpec) (r : DRow)
    (hr : r ∈ dfFiltered df s) :
    r.gender.isSome ∧ r.contract.isSome ∧ r.churn_status.isSome := by
  have hrb : r ∈ df.filter (basePred s) := by
    unfold dfFiltered at hr
    by_cases hhr : s.high_risk
    · rw [if_pos hhr] at hr
      exact (List.mem_filter.mp hr).1
    · rwa [if_neg hhr] at hr
  have hb : basePred s r = true := (List.mem_filter.mp hrb).2
  simp only [basePred, Bool.and_eq_true] at hb
  obtain ⟨⟨⟨⟨h1, h2⟩, h3⟩, _⟩, _⟩ := hb
  exact ⟨optMemS_isSome h1, optMemS_isSome h2, optMemS_isSome h3⟩

/-- C10, witness: the theorem applied to a concrete row of a concrete
filtered view. -/
theorem C10_witness :
    rowM.gender.isSome ∧ rowM.contract.isSome ∧ rowM.churn_status.isSome :=
  C10_null_rows_excluded dfNull specFull rowM (by decide)

end Churn
